import Mathlib

set_option maxRecDepth 8000

/-!
Verification development for the task-brief orchestration service
(`src/app.py`): a Flask endpoint that validates a shared secret, generates a
single-page HTML application (with a deterministic template fallback when the
completion API fails), publishes it to a GitHub repository, and reports the
resulting URLs to an evaluation callback with a fixed retry schedule.

The Python source is shallowly embedded: pure string construction is
translated directly; calls to external collaborators (the completion API,
the GitHub API as seen by the HTTP handler, the callback endpoint, the web
framework's JSON body parsing, which may itself raise) are parameterised as
oracle values describing the outcome of each external call.  Python values that may be `None` are
modelled as `Option`; Python exceptions are modelled with `Except`.
-/

/-- Python `f"{x}"` rendering of an optional string: `None` renders as
`"None"`, a string renders as itself. -/
def pyShow (o : Option String) : String := o.getD "None"

/-- Python `f"{x}"` rendering of an optional integer. -/
def pyShowInt (o : Option Int) : String :=
  match o with
  | none => "None"
  | some i => toString i

/-- Python `str.lower()` (character-wise lowercasing). -/
def pyLower (s : String) : String := String.mk (s.data.map Char.toLower)

/-- Substring occurrence: `needle` occurs contiguously inside `hay`
(Python's `needle in hay`). -/
abbrev occursIn (needle hay : String) : Prop := needle.data <:+: hay.data

/-! ## Artifact generator (`generate_template_based_code`, `generate_app_code`) -/

/-- The Bootstrap CSS `<link>` tag inserted by the fallback template
(`app.py` line 204). -/
def bootstrap_css_link : String :=
  "<link href=\"https://cdn.jsdelivr.net/npm/bootstrap@5.3.0/dist/css/bootstrap.min.css\" rel=\"stylesheet\">"

/-- The keyword list of `app.py` line 202. -/
def bootstrapKeywords : List String := ["bootstrap", "navbar", "card", "button", "form"]

/-- Keyword detection `needs_bootstrap` of `app.py` line 202:
`any(word in brief_lower for word in ['bootstrap', 'navbar', 'card', 'button', 'form'])`. -/
def needs_bootstrap (brief : String) : Bool :=
  bootstrapKeywords.any fun w => decide (w.data <:+: (pyLower brief).data)

/-- Literal chunk of the fallback f-string before the `{bootstrap_css}` slot. -/
def tplHead : String :=
  "<!DOCTYPE html>\n<html lang=\"en\">\n<head>\n    <meta charset=\"UTF-8\">\n    <meta name=\"viewport\" content=\"width=device-width, initial-scale=1.0\">\n    <title>Auto-Generated App</title>\n    "

/-- Literal chunk between the `{bootstrap_css}` and `{container_class}` slots. -/
def tplAfterCss : String :=
  "\n</head>\n<body>\n    <div class=\""

/-- Literal chunk between the `{container_class}` and `{brief}` slots. -/
def tplAfterContainer : String :=
  "\">\n        <h1>Auto-Generated Application</h1>\n        <p class=\"lead\">This application was automatically generated based on the brief.</p>\n        <div class=\"alert alert-info mt-3\">\n            <strong>Brief:</strong> "

/-- Literal chunk between the `{brief}` slot and the joined check items. -/
def tplAfterBrief : String :=
  "\n        </div>\n        <div class=\"card mt-3\">\n            <div class=\"card-body\">\n                <h5 class=\"card-title\">Implementation Requirements</h5>\n                <ul>\n                    "

/-- Literal chunk after the joined check items, closing the document. -/
def tplAfterChecks : String :=
  "\n                </ul>\n            </div>\n        </div>\n    </div>\n</body>\n</html>"

/-- The joined check items `"".join([f"<li>{check}</li>" for check in checks])`
of `app.py` line 226. -/
def renderChecks (checks : List String) : String :=
  String.join (checks.map fun check => "<li>" ++ check ++ "</li>")

/-- The f-string of `app.py` lines 207-232 assembled for a string brief,
with the two conditional slots of lines 204-205. -/
def fallbackDoc (brief : String) (checks : List String) : String :=
  tplHead
    ++ (if needs_bootstrap brief then bootstrap_css_link else "")
    ++ tplAfterCss
    ++ (if needs_bootstrap brief then "container mt-5" else "")
    ++ tplAfterContainer
    ++ brief
    ++ tplAfterBrief
    ++ renderChecks checks
    ++ tplAfterChecks

/-- Function `generate_template_based_code(brief, checks)` (`app.py` lines 196-232).
Its first statement is `brief_lower = brief.lower()`, which raises
`AttributeError` when `brief` is Python `None`; the `Except.error` case
models that exception. -/
def generate_template_based_code (brief : Option String) (checks : List String) :
    Except Unit String :=
  match brief with
  | none => .error ()
  | some b => .ok (fallbackDoc b checks)

/-- The markdown-fence cleanup of `app.py` lines 176-183, applied to a
successful completion-API answer. -/
def stripFences (code : String) : String :=
  if code.startsWith "```" then
    let lines := code.splitOn "\n"
    let lines :=
      match lines with
      | [] => []
      | l0 :: rest => if l0.startsWith "```" then rest else l0 :: rest
    let lines :=
      if lines ≠ [] ∧ (lines.getLastD "").startsWith "```" then lines.dropLast else lines
    String.intercalate "\n" lines
  else code

/-- Function `generate_app_code(brief, attachments, checks)` (`app.py` lines 116-193).
The outcome of the completion-API call (the whole `try` body: client
construction, the chat request, and reading the answer text) is the oracle
`api`; on any exception the function falls back to
`generate_template_based_code` (lines 188-193). -/
def generate_app_code (brief : Option String) (attachments : List (String × String))
    (checks : List String) (api : Except Unit String) : Except Unit String :=
  match api with
  | .ok code => .ok (stripFences code)
  | .error _ => generate_template_based_code brief checks

/-! ## Result reporter (`report_to_evaluation`) -/

/-- The JSON payload of `app.py` lines 356-364: exactly the seven fields
`email, task, round, nonce, repo_url, commit_sha, pages_url`. -/
structure ReportPayload where
  email : Option String
  task : Option String
  round : Option Int
  nonce : Option String
  repo_url : String
  commit_sha : Nat
  pages_url : String
deriving DecidableEq, Repr

/-- One outbound `requests.post` call as issued by `app.py` lines 370-375:
target URL, JSON payload, `Content-Type` header value, and per-attempt
timeout in seconds. -/
structure HttpPost where
  url : Option String
  payload : ReportPayload
  contentType : String
  timeout : Nat
deriving DecidableEq, Repr

/-- Result of running the retry loop: the returned boolean, the sleeps
performed (in seconds, in order), the number of POST attempts made, and the
POST requests issued (in order). -/
structure ReportResult where
  success : Bool
  sleeps : List Nat
  attempts : Nat
  posts : List HttpPost
deriving DecidableEq, Repr

/-- Outcome of one attempt's `requests.post`: `.error` is a transport-level
exception, `.ok s` a response with status code `s`. -/
abbrev PostOutcome := Except Unit Nat

/-- Equality of attempt outcomes is decidable. -/
instance : DecidableEq PostOutcome := fun a b =>
  match a, b with
  | .ok x, .ok y =>
    if h : x = y then .isTrue (by rw [h]) else .isFalse (by simp [h])
  | .error (), .error () => .isTrue rfl
  | .ok _, .error _ => .isFalse (by simp)
  | .error _, .ok _ => .isFalse (by simp)

/-- Success test `response.status_code == 200` (`app.py` line 377); a transport exception
is never a success. -/
def isOk200 : PostOutcome → Bool
  | .ok s => s == 200
  | .error _ => false

/-- The delay schedule `delays = [1, 2, 4, 8]` (`app.py` line 367). -/
def delays : List Nat := [1, 2, 4, 8]

/-- The sleeps performed at the end of one failed iteration:
`if delay is not None: time.sleep(delay)` (`app.py` lines 386-387). -/
def sleepOf : Option Nat → List Nat
  | some k => [k]
  | none => []

/-- The loop body of `app.py` lines 368-387: iterate over `delays + [None]`;
on each iteration POST once, return `True` immediately on status 200,
otherwise sleep the iteration's delay when it is not `None` and continue.
`oc i` is the outcome of the POST of attempt `i`. -/
def reportGo (oc : Nat → PostOutcome) (post : HttpPost) :
    List (Option Nat) → Nat → ReportResult
  | [], _ => ⟨false, [], 0, []⟩
  | d :: rest, i =>
    if isOk200 (oc i) then ⟨true, [], 1, [post]⟩
    else
      let r := reportGo oc post rest (i + 1)
      ⟨r.success, sleepOf d ++ r.sleeps, r.attempts + 1, post :: r.posts⟩

/-- Function `report_to_evaluation(...)` (`app.py` lines 353-389): build the payload
once, then run the retry loop over `delays + [None]` starting at attempt 0. -/
def report_to_evaluation (oc : Nat → PostOutcome) (evaluation_url : Option String)
    (email task : Option String) (round_num : Option Int) (nonce : Option String)
    (repo_url : String) (commit_sha : Nat) (pages_url : String) : ReportResult :=
  reportGo oc
    { url := evaluation_url
      payload :=
        { email := email, task := task, round := round_num, nonce := nonce
          repo_url := repo_url, commit_sha := commit_sha, pages_url := pages_url }
      contentType := "application/json"
      timeout := 30 }
    (delays.map some ++ [none]) 0

/-! ## Publisher (`create_and_deploy_repo`) -/

/-- A file stored in the repository: its content and its current integrity
token (the GitHub content `sha`, required to authorize an in-place update). -/
structure FileRec where
  content : String
  sha : Nat
deriving DecidableEq, Repr

/-- The remote repository state visible to `create_and_deploy_repo`: the
files (an ordered list of path/record pairs, so that an erroneous duplicate
creation would be observable), the commit identifiers (most recent first),
a counter supplying fresh integrity tokens and commit identifiers, and the
Pages-enabled flag. -/
structure RepoState where
  files : List (String × FileRec)
  commits : List Nat
  ctr : Nat
  pages : Bool
deriving DecidableEq, Repr

/-- The GitHub operations performed by the publisher, recorded in order. -/
inductive RepoOp
  | createRepo
  | createFile (path : String)
  | updateFile (path : String)
  | enablePages
deriving DecidableEq, Repr

/-- Operation `repo.get_contents(path)`: returns the file record, raising when
no file exists at `path`. -/
def get_contents (st : RepoState) (path : String) : Except Unit FileRec :=
  match st.files.lookup path with
  | some r => .ok r
  | none => .error ()

/-- Operation `repo.create_file(path, message, content)`: append a new file with a
fresh integrity token and record a new commit. -/
def create_file (st : RepoState) (path content : String) : RepoState :=
  { st with
    files := st.files ++ [(path, ⟨content, st.ctr⟩)]
    commits := st.ctr :: st.commits
    ctr := st.ctr + 1 }

/-- Operation `repo.update_file(path, message, content, sha)`: replace the file at
`path` in place, provided the supplied integrity token matches the stored
one; otherwise the call raises. -/
def update_file (st : RepoState) (path content : String) (sha : Nat) :
    Except Unit RepoState :=
  match st.files.lookup path with
  | some r =>
    if r.sha = sha then
      .ok { st with
            files := st.files.map fun p => if p.1 = path then (path, ⟨content, st.ctr⟩) else p
            commits := st.ctr :: st.commits
            ctr := st.ctr + 1 }
    else .error ()
  | none => .error ()

/-- The fixed MIT license text of `app.py` lines 275-295. -/
def license_content : String :=
  "MIT License\n\nCopyright (c) 2025\n\nPermission is hereby granted, free of charge, to any person obtaining a copy\nof this software and associated documentation files (the \"Software\"), to deal\nin the Software without restriction, including without limitation the rights\nto use, copy, modify, merge, publish, distribute, sublicense, and/or sell\ncopies of the Software, and to permit persons to whom the Software is\nfurnished to do so, subject to the following conditions:\n\nThe above copyright notice and this permission notice shall be included in all\ncopies or substantial portions of the Software.\n\nTHE SOFTWARE IS PROVIDED \"AS IS\", WITHOUT WARRANTY OF ANY KIND, EXPRESS OR\nIMPLIED, INCLUDING BUT NOT LIMITED TO THE WARRANTIES OF MERCHANTABILITY,\nFITNESS FOR A PARTICULAR PURPOSE AND NONINFRINGEMENT. IN NO EVENT SHALL THE\nAUTHORS OR COPYRIGHT HOLDERS BE LIABLE FOR ANY CLAIM, DAMAGES OR OTHER\nLIABILITY, WHETHER IN AN ACTION OF CONTRACT, TORT OR OTHERWISE, ARISING FROM,\nOUT OF OR IN CONNECTION WITH THE SOFTWARE OR THE USE OR OTHER DEALINGS IN THE\nSOFTWARE."

/-- Function `generate_readme(brief, round_num)` (`app.py` lines 321-350). -/
def generate_readme (brief : Option String) (round_num : Option Int) : String :=
  "# Auto-Generated Application - Round " ++ pyShowInt round_num
    ++ "\n\n## Overview\n" ++ pyShow brief
    ++ "\n\n## Setup\nThis is a static web application that runs directly in the browser.\n\n## Usage\n1. Visit the GitHub Pages URL\n2. The application will load automatically\n3. Follow the on-screen instructions\n\n## Implementation\nThis application was automatically generated based on the provided brief and requirements.\n\n### Technologies Used\n- HTML5\n- CSS3\n- JavaScript (ES6+)\n- External libraries loaded via CDN\n\n## License\nMIT License - See LICENSE file for details\n\n## Generated\nThis project was automatically generated and deployed using an LLM-assisted build system.\n"

/-- What `create_and_deploy_repo` produces: the final repository state, the
operation log, and the returned triple `(repo_url, commit_sha, pages_url)`. -/
structure DeployResult where
  state : RepoState
  ops : List RepoOp
  repo_url : String
  commit_sha : Nat
  pages_url : String
deriving DecidableEq, Repr

/-- Function `create_and_deploy_repo(repo_name, app_code, brief, round_num)`
of `app.py` lines 235-318.  `user` is the configured `GITHUB_USERNAME`;
`repo0` is the repository found under the authenticated account (`none`
when `user.get_repo(repo_name)` raises, in which case a public repository
is created).  Each file is handled by the source's
try-read / update-on-success / create-on-failure pattern; the LICENSE is
only read and created when absent, never updated; Pages enablement is
attempted and any failure swallowed. -/
def create_and_deploy_repo (user : Option String) (repo0 : Option RepoState)
    (repo_name app_code : String) (brief : Option String) (round_num : Option Int) :
    DeployResult :=
  let s0 : RepoState × List RepoOp :=
    match repo0 with
    | some st => (st, [])
    | none => ({ files := [], commits := [], ctr := 0, pages := false }, [RepoOp.createRepo])
  let s1 : RepoState × List RepoOp :=
    match get_contents s0.1 "index.html" with
    | .ok contents =>
      match update_file s0.1 "index.html" app_code contents.sha with
      | .ok st => (st, [RepoOp.updateFile "index.html"])
      | .error _ => (create_file s0.1 "index.html" app_code, [RepoOp.createFile "index.html"])
    | .error _ => (create_file s0.1 "index.html" app_code, [RepoOp.createFile "index.html"])
  let readme_content := generate_readme brief round_num
  let s2 : RepoState × List RepoOp :=
    match get_contents s1.1 "README.md" with
    | .ok contents =>
      match update_file s1.1 "README.md" readme_content contents.sha with
      | .ok st => (st, [RepoOp.updateFile "README.md"])
      | .error _ => (create_file s1.1 "README.md" readme_content, [RepoOp.createFile "README.md"])
    | .error _ => (create_file s1.1 "README.md" readme_content, [RepoOp.createFile "README.md"])
  let s3 : RepoState × List RepoOp :=
    match get_contents s2.1 "LICENSE" with
    | .ok _ => (s2.1, [])
    | .error _ => (create_file s2.1 "LICENSE" license_content, [RepoOp.createFile "LICENSE"])
  let st4 : RepoState := { s3.1 with pages := true }
  { state := st4
    ops := s0.2 ++ s1.2 ++ s2.2 ++ s3.2 ++ [RepoOp.enablePages]
    repo_url := "https://github.com/" ++ pyShow user ++ "/" ++ repo_name
    commit_sha := st4.commits.headD 0
    pages_url := "https://" ++ pyShow user ++ ".github.io/" ++ repo_name ++ "/" }

/-! ## HTTP handler (`handle_request`) -/

/-- Process-wide configuration read from the environment at startup
(`app.py` lines 18-21); `os.getenv` yields `None` when a variable is unset. -/
structure Config where
  secretKey : Option String
  githubUsername : Option String
deriving DecidableEq, Repr

/-- The fields extracted from a parsed JSON body (`app.py` lines 56-71),
each via `data.get(...)` with `None` (or, for `checks` and `attachments`,
the empty list) as default. -/
structure RequestData where
  secret : Option String
  email : Option String
  task : Option String
  round : Option Int
  nonce : Option String
  brief : Option String
  checks : List String
  evaluation_url : Option String
  attachments : List (String × String)
deriving DecidableEq, Repr

/-- The responses `handle_request` can produce. -/
inductive Resp
  /-- Status 400 with the no-JSON-data error body (`app.py` line 51). -/
  | noData
  /-- Status 403 with the invalid-secret error body (`app.py` line 59). -/
  | invalidSecret
  /-- Status 500 with the error text and traceback (`app.py` lines 110-113). -/
  | serverError
  /-- Status 200 with status, repo_url, pages_url and reported fields
  (`app.py` lines 98-103). -/
  | success (repo_url pages_url : String) (reported : Bool)
deriving DecidableEq, Repr

/-- HTTP status code of a response. -/
def Resp.status : Resp → Nat
  | .noData => 400
  | .invalidSecret => 403
  | .serverError => 500
  | .success _ _ _ => 200

/-- The observable side-effecting steps of one request, in invocation order. -/
inductive Effect
  | genCall
  | deployCall
  | reportCall
deriving DecidableEq, Repr

/-- Function `handle_request()` (`app.py` lines 43-113).  `body` is the
outcome of the `request.get_json()` call at line 48, which runs inside the
handler's `try` block: `.error ()` when `get_json` raises (an unparseable
body, or a missing/unsupported JSON content type) — that exception falls
through to the `except` at lines 105-113 and is answered 500; `.ok none`
when it returns no data (a parseable but falsy body such as `null`),
answered 400 at lines 50-51; `.ok (some data)` a parsed JSON object.
`api` is the completion-API oracle consumed by `generate_app_code`;
`deployR` is the outcome of `create_and_deploy_repo` (`.error` when the
GitHub interaction raises, `.ok (repo_url, commit_sha, pages_url)`
otherwise); `oc` gives the per-attempt callback-POST outcomes consumed by
`report_to_evaluation`.  Any exception reaching the top level is answered
with the 500 response. -/
def handle_request (cfg : Config) (body : Except Unit (Option RequestData))
    (api : Except Unit String) (deployR : Except Unit (String × Nat × String))
    (oc : Nat → PostOutcome) : Resp × List Effect :=
  match body with
  | .error _ => (.serverError, [])
  | .ok none => (.noData, [])
  | .ok (some data) =>
    if data.secret ≠ cfg.secretKey then (.invalidSecret, [])
    else
      match generate_app_code data.brief data.attachments data.checks api with
      | .error _ => (.serverError, [.genCall])
      | .ok _ =>
        match deployR with
        | .error _ => (.serverError, [.genCall, .deployCall])
        | .ok (repo_url, commit_sha, pages_url) =>
          let rep := report_to_evaluation oc data.evaluation_url data.email data.task
            data.round data.nonce repo_url commit_sha pages_url
          (.success repo_url pages_url rep.success, [.genCall, .deployCall, .reportCall])

/-! ## Shared concrete sample values for witnesses -/

/-- A sample configuration with a set shared secret. -/
def cfgS : Config := { secretKey := some "s3cr3t", githubUsername := some "acct" }

/-- A sample well-formed request carrying the correct secret. -/
def reqGood : RequestData :=
  { secret := some "s3cr3t", email := some "a@b.c", task := some "demo1"
    round := some 1, nonce := some "n0", brief := some "a todo app"
    checks := ["check one"], evaluation_url := some "https://eval.example/cb"
    attachments := [] }

/-- Request `reqGood` with a wrong secret. -/
def reqBad : RequestData := { reqGood with secret := some "wrong" }

/-- A callback oracle that always raises a transport exception. -/
def ocFail : Nat → PostOutcome := fun _ => .error ()

/-- A callback oracle that fails four times and answers 200 on the fifth
attempt. -/
def ocFifth : Nat → PostOutcome := fun i => if i = 4 then .ok 200 else .error ()

/-! ## Claims about the handler -/

/-- Claim C1: For every inbound POST request with a parseable JSON body whose
`secret` field is not string-equal to the configured shared secret, the
handler returns HTTP 403 and performs no generation, publish, or report side
effect. -/
theorem claim_C1_secret_mismatch_rejected (cfg : Config) (d : RequestData)
    (api : Except Unit String) (deployR : Except Unit (String × Nat × String))
    (oc : Nat → PostOutcome) (h : d.secret ≠ cfg.secretKey) :
    handle_request cfg (.ok (some d)) api deployR oc = (.invalidSecret, []) ∧
    (handle_request cfg (.ok (some d)) api deployR oc).1.status = 403 ∧
    (handle_request cfg (.ok (some d)) api deployR oc).2 = [] := by
  refine ⟨?_, ?_, ?_⟩ <;> simp [handle_request, h, Resp.status]

/-- Witness for C1 at a concrete request with a wrong secret. -/
theorem claim_C1_witness :
    reqBad.secret ≠ cfgS.secretKey ∧
    handle_request cfgS (.ok (some reqBad)) (.ok "x") (.ok ("r", 0, "p")) ocFail
      = (.invalidSecret, []) :=
  ⟨by decide,
    (claim_C1_secret_mismatch_rejected cfgS reqBad (.ok "x") (.ok ("r", 0, "p")) ocFail
      (by decide)).1⟩

/-- Claim C9: If the configured shared secret is unset (`SECRET_KEY` absent,
yielding `None`), a request whose body omits the `secret` field passes the
authentication check (`None == None`) and proceeds to generation (and, when
generation succeeds, to publish) instead of being rejected with 403. -/
theorem claim_C9_unset_secret_not_rejected (cfg : Config) (d : RequestData)
    (api : Except Unit String) (deployR : Except Unit (String × Nat × String))
    (oc : Nat → PostOutcome) (hcfg : cfg.secretKey = none) (hd : d.secret = none) :
    (handle_request cfg (.ok (some d)) api deployR oc).1 ≠ .invalidSecret ∧
    Effect.genCall ∈ (handle_request cfg (.ok (some d)) api deployR oc).2 ∧
    (∀ c, generate_app_code d.brief d.attachments d.checks api = .ok c →
      Effect.deployCall ∈ (handle_request cfg (.ok (some d)) api deployR oc).2) := by
  have hs : ¬ d.secret ≠ cfg.secretKey := by rw [hcfg, hd]; simp
  refine ⟨?_, ?_, ?_⟩
  · simp only [handle_request, if_neg hs]
    cases hg : generate_app_code d.brief d.attachments d.checks api with
    | error e => simp
    | ok c =>
      cases deployR with
      | error e => simp
      | ok v => obtain ⟨ru, sha, pu⟩ := v; simp
  · simp only [handle_request, if_neg hs]
    cases hg : generate_app_code d.brief d.attachments d.checks api with
    | error e => simp
    | ok c =>
      cases deployR with
      | error e => simp
      | ok v => obtain ⟨ru, sha, pu⟩ := v; simp
  · intro c hc
    simp only [handle_request, if_neg hs, hc]
    cases deployR with
    | error e => simp
    | ok v => obtain ⟨ru, sha, pu⟩ := v; simp

/-- Witness for C9: unset secret, request without a `secret` field. -/
theorem claim_C9_witness :
    ({ secretKey := none, githubUsername := some "acct" } : Config).secretKey = none ∧
    ({ reqGood with secret := none } : RequestData).secret = none ∧
    (handle_request { secretKey := none, githubUsername := some "acct" }
        (.ok (some { reqGood with secret := none })) (.error ()) (.ok ("r", 0, "p")) ocFail).1
      ≠ .invalidSecret :=
  ⟨rfl, rfl,
    (claim_C9_unset_secret_not_rejected { secretKey := none, githubUsername := some "acct" }
      { reqGood with secret := none } (.error ()) (.ok ("r", 0, "p")) ocFail rfl rfl).1⟩

/-- The three template chunks that precede the brief slot when no Bootstrap
keyword is detected (both conditional slots render as the empty string). -/
def tplPlain : String := tplHead ++ tplAfterCss ++ tplAfterContainer

/-- Chunk-level decomposition of the fallback document's character list. -/
lemma fallbackDoc_data (b : String) (cs : List String) :
    (fallbackDoc b cs).data =
      tplHead.data
        ++ ((if needs_bootstrap b then bootstrap_css_link else "").data
        ++ (tplAfterCss.data
        ++ ((if needs_bootstrap b then "container mt-5" else "").data
        ++ (tplAfterContainer.data
        ++ (b.data
        ++ (tplAfterBrief.data
        ++ ((renderChecks cs).data
        ++ tplAfterChecks.data))))))) := by
  simp [fallbackDoc, String.data_append, List.append_assoc]

/-- Decomposition in the keyword-free case. -/
lemma fallbackDoc_data_plain (b : String) (cs : List String)
    (h : needs_bootstrap b = false) :
    (fallbackDoc b cs).data =
      tplPlain.data
        ++ (b.data
        ++ (tplAfterBrief.data
        ++ ((renderChecks cs).data
        ++ tplAfterChecks.data))) := by
  simp [fallbackDoc_data, h, tplPlain, String.data_append, List.append_assoc]

/-- Each check is rendered as a `<li>` item inside the joined check list. -/
lemma occursIn_renderChecks {c : String} {cs : List String} (h : c ∈ cs) :
    occursIn ("<li>" ++ c ++ "</li>") (renderChecks cs) := by
  have hmem : ("<li>" ++ c ++ "</li>").data
      ∈ (cs.map fun check => "<li>" ++ check ++ "</li>").map String.data :=
    List.mem_map_of_mem _ (List.mem_map_of_mem _ h)
  have hj : (renderChecks cs).data
      = ((cs.map fun check => "<li>" ++ check ++ "</li>").map String.data).flatten := by
    simp [renderChecks, String.join_eq]
  rw [occursIn, hj]
  exact List.infix_of_mem_flatten hmem

/-- Claim C2: With a string brief and string checks, a completion-API failure
makes `generate_app_code` return (not raise) the deterministic fallback
document, which is non-empty, contains the brief verbatim, and renders each
check as a `<li>` list item. -/
theorem claim_C2_fallback_total_and_faithful (brief : String)
    (attachments : List (String × String)) (checks : List String) :
    generate_app_code (some brief) attachments checks (.error ())
        = .ok (fallbackDoc brief checks) ∧
    fallbackDoc brief checks ≠ "" ∧
    occursIn brief (fallbackDoc brief checks) ∧
    ∀ c ∈ checks, occursIn ("<li>" ++ c ++ "</li>") (fallbackDoc brief checks) := by
  refine ⟨rfl, ?_, ?_, ?_⟩
  · intro h
    have hd : (fallbackDoc brief checks).data = [] := by rw [h]
    rw [fallbackDoc_data] at hd
    have : tplHead.data ≠ [] := by decide
    exact this (List.append_eq_nil.mp hd).1
  · rw [occursIn, fallbackDoc_data]
    exact ⟨tplHead.data ++ ((if needs_bootstrap brief then bootstrap_css_link else "").data
        ++ (tplAfterCss.data ++ ((if needs_bootstrap brief then "container mt-5" else "").data
        ++ tplAfterContainer.data))),
      tplAfterBrief.data ++ ((renderChecks checks).data ++ tplAfterChecks.data),
      by simp [List.append_assoc]⟩
  · intro c hc
    have h1 := occursIn_renderChecks hc
    rw [occursIn, fallbackDoc_data]
    refine h1.trans ?_
    exact ⟨tplHead.data ++ ((if needs_bootstrap brief then bootstrap_css_link else "").data
        ++ (tplAfterCss.data ++ ((if needs_bootstrap brief then "container mt-5" else "").data
        ++ (tplAfterContainer.data ++ (brief.data ++ tplAfterBrief.data))))),
      tplAfterChecks.data,
      by simp [List.append_assoc]⟩

/-- Witness for C2 at a concrete brief and check list. -/
theorem claim_C2_witness :
    generate_app_code (some "a todo app") [] ["check one"] (.error ())
        = .ok (fallbackDoc "a todo app" ["check one"]) ∧
    occursIn "a todo app" (fallbackDoc "a todo app" ["check one"]) ∧
    ("check one" ∈ ["check one"] ∧
      occursIn ("<li>" ++ "check one" ++ "</li>") (fallbackDoc "a todo app" ["check one"])) :=
  ⟨(claim_C2_fallback_total_and_faithful "a todo app" [] ["check one"]).1,
    (claim_C2_fallback_total_and_faithful "a todo app" [] ["check one"]).2.2.1,
    List.mem_singleton.mpr rfl,
    (claim_C2_fallback_total_and_faithful "a todo app" [] ["check one"]).2.2.2
      "check one" (List.mem_singleton.mpr rfl)⟩

/-- Claim C10: When the `brief` field is absent (Python `None`) and the
completion call raises, the fallback itself raises (`None.lower()`), the
exception propagates out of `generate_app_code`, and the handler answers 500;
the fallback is total only for string briefs. -/
theorem claim_C10_none_brief_fallback_raises
    (attachments : List (String × String)) (checks : List String) :
    generate_app_code none attachments checks (.error ()) = .error () ∧
    (∀ (cfg : Config) (d : RequestData)
        (deployR : Except Unit (String × Nat × String)) (oc : Nat → PostOutcome),
      d.brief = none → d.secret = cfg.secretKey →
        handle_request cfg (.ok (some d)) (.error ()) deployR oc = (.serverError, [.genCall]) ∧
        Resp.serverError.status = 500) ∧
    (∀ b : String, generate_app_code (some b) attachments checks (.error ())
        = .ok (fallbackDoc b checks)) := by
  refine ⟨rfl, ?_, fun b => rfl⟩
  intro cfg d deployR oc hb hs
  have hs' : ¬ d.secret ≠ cfg.secretKey := by simpa using hs
  refine ⟨?_, rfl⟩
  simp [handle_request, if_neg hs', hb, generate_app_code, generate_template_based_code]

/-- Witness for C10: a request with no `brief` field is answered 500 when the
completion call fails. -/
theorem claim_C10_witness :
    ({ reqGood with brief := none } : RequestData).brief = none ∧
    handle_request cfgS (.ok (some { reqGood with brief := none })) (.error ())
        (.ok ("r", 0, "p")) ocFail = (.serverError, [.genCall]) :=
  ⟨rfl,
    ((claim_C10_none_brief_fallback_raises [] []).2.1 cfgS
      { reqGood with brief := none } (.ok ("r", 0, "p")) ocFail rfl rfl).1⟩

/-! ## Claims about the reporter -/

/-- An attempt outcome is a success exactly when it is an HTTP 200 response. -/
lemma isOk200_iff (o : PostOutcome) : isOk200 o = true ↔ o = .ok 200 := by
  cases o with
  | ok s => simp [isOk200]
  | error e => simp [isOk200]

/-- If every attempt fails, the loop runs all attempts, sleeps each listed
delay in order, and returns failure. -/
lemma reportGo_all_fail (oc : Nat → PostOutcome) (post : HttpPost) :
    ∀ (ds : List (Option Nat)) (i : Nat),
      (∀ j < ds.length, isOk200 (oc (i + j)) = false) →
      reportGo oc post ds i
        = ⟨false, ds.filterMap id, ds.length, List.replicate ds.length post⟩ := by
  intro ds
  induction ds with
  | nil => intro i _; rfl
  | cons d rest ih =>
    intro i h
    have h0 : isOk200 (oc i) = false := by simpa using h 0 (by simp)
    have hrest : ∀ j < rest.length, isOk200 (oc (i + 1 + j)) = false := by
      intro j hj
      have := h (j + 1) (by simpa using Nat.succ_lt_succ hj)
      rwa [show i + (j + 1) = i + 1 + j by omega] at this
    rw [reportGo, h0]
    simp only [Bool.false_eq_true, if_false, ih (i + 1) hrest]
    cases d <;> simp [sleepOf, List.replicate_succ]

/-- If the first `k` attempts fail and attempt `k` succeeds, the loop stops
at attempt `k + 1`, having slept exactly the first `k` delays. -/
lemma reportGo_first_success (oc : Nat → PostOutcome) (post : HttpPost) :
    ∀ (k : Nat) (ds : List (Option Nat)) (i : Nat),
      k < ds.length →
      (∀ j < k, isOk200 (oc (i + j)) = false) →
      isOk200 (oc (i + k)) = true →
      reportGo oc post ds i
        = ⟨true, (ds.take k).filterMap id, k + 1, List.replicate (k + 1) post⟩ := by
  intro k
  induction k with
  | zero =>
    intro ds i hlen _ hok
    cases ds with
    | nil => simp at hlen
    | cons d rest =>
      have h0 : isOk200 (oc i) = true := by simpa using hok
      rw [reportGo, h0]
      simp
  | succ k ih =>
    intro ds i hlen hfail hok
    cases ds with
    | nil => simp at hlen
    | cons d rest =>
      have h0 : isOk200 (oc i) = false := by simpa using hfail 0 (Nat.succ_pos k)
      have hrest : ∀ j < k, isOk200 (oc (i + 1 + j)) = false := by
        intro j hj
        have := hfail (j + 1) (Nat.succ_lt_succ hj)
        rwa [show i + (j + 1) = i + 1 + j by omega] at this
      have hok' : isOk200 (oc (i + 1 + k)) = true := by
        rwa [show i + (k + 1) = i + 1 + k by omega] at hok
      rw [reportGo, h0]
      simp only [Bool.false_eq_true, if_false,
        ih rest (i + 1) (by simpa using Nat.lt_of_succ_lt_succ hlen) hrest hok']
      cases d <;> simp [sleepOf, List.replicate_succ]

/-- The loop succeeds exactly when some attempt within the schedule gets a
200 response. -/
lemma reportGo_success_iff (oc : Nat → PostOutcome) (post : HttpPost) :
    ∀ (ds : List (Option Nat)) (i : Nat),
      (reportGo oc post ds i).success = true ↔
        ∃ j < ds.length, isOk200 (oc (i + j)) = true := by
  intro ds
  induction ds with
  | nil => intro i; simp [reportGo]
  | cons d rest ih =>
    intro i
    by_cases h0 : isOk200 (oc i) = true
    · rw [reportGo, h0]
      exact iff_of_true (by simp) ⟨0, by simp, by simpa using h0⟩
    · have h0' : isOk200 (oc i) = false := by simpa using h0
      rw [reportGo, h0']
      simp only [Bool.false_eq_true, if_false]
      rw [show (⟨(reportGo oc post rest (i+1)).success,
            sleepOf d ++ (reportGo oc post rest (i+1)).sleeps,
            (reportGo oc post rest (i+1)).attempts + 1,
            post :: (reportGo oc post rest (i+1)).posts⟩ : ReportResult).success
          = (reportGo oc post rest (i+1)).success from rfl, ih (i + 1)]
      constructor
      · rintro ⟨j, hj, hja⟩
        exact ⟨j + 1, by simpa using Nat.succ_lt_succ hj,
          by rwa [show i + (j + 1) = i + 1 + j by omega]⟩
      · rintro ⟨j, hj, hja⟩
        cases j with
        | zero => exact absurd (by simpa using hja) h0
        | succ j =>
          have hj' : j < rest.length := by simpa using Nat.lt_of_succ_lt_succ hj
          exact ⟨j, hj', by rwa [show i + (j + 1) = i + 1 + j by omega] at hja⟩

/-- The loop makes at most one attempt per schedule entry. -/
lemma reportGo_attempts_le (oc : Nat → PostOutcome) (post : HttpPost) :
    ∀ (ds : List (Option Nat)) (i : Nat),
      (reportGo oc post ds i).attempts ≤ ds.length := by
  intro ds
  induction ds with
  | nil => intro i; simp [reportGo]
  | cons d rest ih =>
    intro i
    rw [reportGo]
    by_cases h0 : isOk200 (oc i) = true
    · rw [h0]; simp
    · have h0' : isOk200 (oc i) = false := by simpa using h0
      rw [h0']
      simpa using Nat.succ_le_succ (ih (i + 1))

/-- Every POST issued by the loop is the single request value built from the
payload. -/
lemma reportGo_posts_eq (oc : Nat → PostOutcome) (post : HttpPost) :
    ∀ (ds : List (Option Nat)) (i : Nat),
      ∀ p ∈ (reportGo oc post ds i).posts, p = post := by
  intro ds
  induction ds with
  | nil => intro i p hp; simp [reportGo] at hp
  | cons d rest ih =>
    intro i p hp
    rw [reportGo] at hp
    by_cases h0 : isOk200 (oc i) = true
    · rw [h0] at hp; simp at hp; exact hp
    · have h0' : isOk200 (oc i) = false := by simpa using h0
      rw [h0'] at hp
      simp only [Bool.false_eq_true, if_false, List.mem_cons] at hp
      rcases hp with rfl | hp
      · rfl
      · exact ih (i + 1) p hp

/-- An attempt outcome fails exactly when it is not an HTTP 200 response. -/
lemma isOk200_eq_false_iff (o : PostOutcome) : isOk200 o = false ↔ o ≠ .ok 200 := by
  cases o with
  | ok s => simp [isOk200]
  | error e => simp [isOk200]

/-- Claim C4: The reporter makes at most five POST attempts; an attempt
succeeds exactly when its response status is 200 (any other status or a
transport exception is a failure); after the failed attempts preceding a
success at attempt `k` it has slept exactly the first `k` scheduled delays
(so a fifth-attempt success is preceded by 1+2+4+8 = 15 seconds of delay),
it sleeps nothing after the final attempt, and it returns success as soon as
an attempt returns 200. -/
theorem claim_C4_retry_policy (oc : Nat → PostOutcome) (evaluation_url : Option String)
    (email task_id : Option String) (round_num : Option Int) (nonce : Option String)
    (repo_url : String) (commit_sha : Nat) (pages_url : String) :
    (report_to_evaluation oc evaluation_url email task_id round_num nonce
        repo_url commit_sha pages_url).attempts ≤ 5 ∧
    ((report_to_evaluation oc evaluation_url email task_id round_num nonce
        repo_url commit_sha pages_url).success = true ↔
      ∃ j < 5, oc j = Except.ok 200) ∧
    (∀ k < 5, (∀ j < k, oc j ≠ Except.ok 200) → oc k = Except.ok 200 →
      report_to_evaluation oc evaluation_url email task_id round_num nonce
          repo_url commit_sha pages_url
        = ⟨true, delays.take k, k + 1,
            List.replicate (k + 1)
              ⟨evaluation_url, ⟨email, task_id, round_num, nonce, repo_url, commit_sha,
                pages_url⟩, "application/json", 30⟩⟩) ∧
    ((∀ j < 5, oc j ≠ Except.ok 200) →
      report_to_evaluation oc evaluation_url email task_id round_num nonce
          repo_url commit_sha pages_url
        = ⟨false, delays, 5,
            List.replicate 5
              ⟨evaluation_url, ⟨email, task_id, round_num, nonce, repo_url, commit_sha,
                pages_url⟩, "application/json", 30⟩⟩) ∧
    delays.sum = 15 := by
  rw [report_to_evaluation]
  refine ⟨?_, ?_, ?_, ?_, by decide⟩
  · simpa [delays] using reportGo_attempts_le oc
      ⟨evaluation_url, ⟨email, task_id, round_num, nonce, repo_url, commit_sha, pages_url⟩,
        "application/json", 30⟩ (delays.map some ++ [none]) 0
  · rw [reportGo_success_iff]
    constructor
    · rintro ⟨j, hj, hja⟩
      exact ⟨j, by simpa [delays] using hj, (isOk200_iff _).mp (by simpa using hja)⟩
    · rintro ⟨j, hj, hja⟩
      exact ⟨j, by simpa [delays] using hj, by simpa using (isOk200_iff _).mpr hja⟩
  · intro k hk hfail hok
    have h1 := reportGo_first_success oc
      ⟨evaluation_url, ⟨email, task_id, round_num, nonce, repo_url, commit_sha, pages_url⟩,
        "application/json", 30⟩ k (delays.map some ++ [none]) 0
      (by simpa [delays] using hk)
      (fun j hj => by
        rw [Nat.zero_add]
        exact (isOk200_eq_false_iff _).mpr (hfail j hj))
      (by rw [Nat.zero_add]; exact (isOk200_iff _).mpr hok)
    rw [h1]
    have htake : ((delays.map some ++ [none]).take k).filterMap id = delays.take k := by
      interval_cases k <;> rfl
    rw [htake]
  · intro hfail
    have h1 := reportGo_all_fail oc
      ⟨evaluation_url, ⟨email, task_id, round_num, nonce, repo_url, commit_sha, pages_url⟩,
        "application/json", 30⟩ (delays.map some ++ [none]) 0
      (fun j hj => by
        rw [Nat.zero_add]
        exact (isOk200_eq_false_iff _).mpr (hfail j (by simpa [delays] using hj)))
    rw [h1]
    rfl

/-- Witness for C4: an endpoint failing four times then answering 200 on the
fifth attempt yields success with sleeps 1, 2, 4, 8 (15 seconds in total). -/
theorem claim_C4_witness :
    report_to_evaluation ocFifth (some "https://eval.example/cb") (some "a@b.c")
        (some "demo1") (some 1) (some "n0") "r" 7 "p"
      = ⟨true, [1, 2, 4, 8], 5,
          List.replicate 5
            ⟨some "https://eval.example/cb", ⟨some "a@b.c", some "demo1", some 1, some "n0",
              "r", 7, "p"⟩, "application/json", 30⟩⟩ ∧
    ([1, 2, 4, 8] : List Nat).sum = 15 := by
  have h := (claim_C4_retry_policy ocFifth (some "https://eval.example/cb") (some "a@b.c")
    (some "demo1") (some 1) (some "n0") "r" 7 "p").2.2.1 4 (by decide)
    (by decide) (by decide)
  exact ⟨by simpa [delays] using h, by decide⟩

/-- Claim C5: If the callback endpoint never answers 200, the reporter returns
failure after five attempts without raising, and the overall API response is
still HTTP 200 with `status: "success"` and `reported: false`. -/
theorem claim_C5_report_failure_still_success (cfg : Config) (d : RequestData)
    (api : Except Unit String) (oc : Nat → PostOutcome) (code ru pu : String) (sha : Nat)
    (hs : d.secret = cfg.secretKey)
    (hg : generate_app_code d.brief d.attachments d.checks api = .ok code)
    (hoc : ∀ j < 5, oc j ≠ Except.ok 200) :
    (report_to_evaluation oc d.evaluation_url d.email d.task d.round d.nonce
        ru sha pu).success = false ∧
    (report_to_evaluation oc d.evaluation_url d.email d.task d.round d.nonce
        ru sha pu).attempts = 5 ∧
    handle_request cfg (.ok (some d)) api (.ok (ru, sha, pu)) oc
      = (.success ru pu false, [.genCall, .deployCall, .reportCall]) ∧
    (Resp.success ru pu false).status = 200 := by
  have hs' : ¬ d.secret ≠ cfg.secretKey := by simpa using hs
  have h1 := reportGo_all_fail oc
    ⟨d.evaluation_url, ⟨d.email, d.task, d.round, d.nonce, ru, sha, pu⟩,
      "application/json", 30⟩ (delays.map some ++ [none]) 0
    (fun j hj => by
      rw [Nat.zero_add]
      exact (isOk200_eq_false_iff _).mpr (hoc j (by simpa [delays] using hj)))
  have hrep : report_to_evaluation oc d.evaluation_url d.email d.task d.round d.nonce
      ru sha pu
      = ⟨false, delays, 5,
          List.replicate 5 ⟨d.evaluation_url, ⟨d.email, d.task, d.round, d.nonce, ru, sha, pu⟩,
            "application/json", 30⟩⟩ := by
    rw [report_to_evaluation, h1]
    rfl
  refine ⟨by rw [hrep], by rw [hrep], ?_, rfl⟩
  simp only [handle_request, if_neg hs', hg, hrep]

/-- Witness for C5 at a concrete request whose callback always fails. -/
theorem claim_C5_witness :
    handle_request cfgS (.ok (some reqGood)) (.error ()) (.ok ("r", 7, "p")) ocFail
      = (.success "r" "p" false, [.genCall, .deployCall, .reportCall]) :=
  (claim_C5_report_failure_still_success cfgS reqGood (.error ()) ocFail
    (fallbackDoc "a todo app" ["check one"]) "r" "p" 7 rfl rfl (by decide)).2.2.1

/-- Claim C8: Every callback POST issued by the reporter carries exactly the
payload fields `{email, task, round, nonce, repo_url, commit_sha, pages_url}`,
`Content-Type: application/json`, and a 30-second per-attempt timeout; and
the publisher's static-site URL has exactly the form
`https://{account}.github.io/{repository}/`. -/
theorem claim_C8_callback_request_shape (oc : Nat → PostOutcome)
    (evaluation_url : Option String) (email task_id : Option String)
    (round_num : Option Int) (nonce : Option String)
    (repo_url : String) (commit_sha : Nat) (pages_url : String) :
    (∀ p ∈ (report_to_evaluation oc evaluation_url email task_id round_num nonce
        repo_url commit_sha pages_url).posts,
      p = ⟨evaluation_url, ⟨email, task_id, round_num, nonce, repo_url, commit_sha,
        pages_url⟩, "application/json", 30⟩) ∧
    (∀ (u : String) (repo0 : Option RepoState) (name code : String)
        (brief : Option String) (rnd : Option Int),
      (create_and_deploy_repo (some u) repo0 name code brief rnd).pages_url
        = "https://" ++ u ++ ".github.io/" ++ name ++ "/") := by
  constructor
  · rw [report_to_evaluation]
    exact reportGo_posts_eq oc _ _ 0
  · intro u repo0 name code brief rnd
    rfl

/-- Witness for C8: the first POST of a concrete run has the canonical
shape, and a concrete publish yields the canonical Pages URL. -/
theorem claim_C8_witness :
    (⟨some "https://eval.example/cb",
        ⟨some "a@b.c", some "demo1", some 1, some "n0", "r", 7, "p"⟩,
        "application/json", 30⟩ : HttpPost)
      ∈ (report_to_evaluation ocFail (some "https://eval.example/cb") (some "a@b.c")
          (some "demo1") (some 1) (some "n0") "r" 7 "p").posts ∧
    (⟨some "https://eval.example/cb",
        ⟨some "a@b.c", some "demo1", some 1, some "n0", "r", 7, "p"⟩,
        "application/json", 30⟩ : HttpPost)
      = ⟨some "https://eval.example/cb",
          ⟨some "a@b.c", some "demo1", some 1, some "n0", "r", 7, "p"⟩,
          "application/json", 30⟩ ∧
    (create_and_deploy_repo (some "acct") none "demo1" "<p>x</p>" (some "a todo app")
        (some 1)).pages_url = "https://acct.github.io/demo1/" := by
  refine ⟨by decide, ?_, ?_⟩
  · exact (claim_C8_callback_request_shape ocFail (some "https://eval.example/cb")
      (some "a@b.c") (some "demo1") (some 1) (some "n0") "r" 7 "p").1 _ (by decide)
  · exact (claim_C8_callback_request_shape ocFail (some "https://eval.example/cb")
      (some "a@b.c") (some "demo1") (some 1) (some "n0") "r" 7 "p").2
      "acct" none "demo1" "<p>x</p>" (some "a todo app") (some 1)

/-! ## Claim about the publisher -/

/-- Claim C7: Publishing twice to the same repository name (second time with
arbitrary different artifact content) updates `index.html` in place through
an `update_file` call carrying the existing integrity token — no duplicate
entry and no second `create_file` for it — while `LICENSE` is created at
most once: on the second invocation it is read but never created, updated or
overwritten. -/
theorem claim_C7_publish_idempotent (user : Option String) (name code1 code2 : String)
    (brief1 brief2 : Option String) (r1 r2 : Option Int) :
    (create_and_deploy_repo user
        (some (create_and_deploy_repo user none name code1 brief1 r1).state)
        name code2 brief2 r2).state.files.lookup "index.html"
      = some ⟨code2, 3⟩ ∧
    (create_and_deploy_repo user
        (some (create_and_deploy_repo user none name code1 brief1 r1).state)
        name code2 brief2 r2).state.files.countP (fun p => p.1 == "index.html") = 1 ∧
    (create_and_deploy_repo user
        (some (create_and_deploy_repo user none name code1 brief1 r1).state)
        name code2 brief2 r2).state.files.lookup "LICENSE"
      = (create_and_deploy_repo user none name code1 brief1 r1).state.files.lookup "LICENSE" ∧
    (create_and_deploy_repo user none name code1 brief1 r1).state.files.lookup "LICENSE"
      = some ⟨license_content, 2⟩ ∧
    (create_and_deploy_repo user
        (some (create_and_deploy_repo user none name code1 brief1 r1).state)
        name code2 brief2 r2).ops
      = [.updateFile "index.html", .updateFile "README.md", .enablePages] ∧
    RepoOp.updateFile "index.html"
      ∈ (create_and_deploy_repo user
          (some (create_and_deploy_repo user none name code1 brief1 r1).state)
          name code2 brief2 r2).ops ∧
    RepoOp.createFile "index.html"
      ∉ (create_and_deploy_repo user
          (some (create_and_deploy_repo user none name code1 brief1 r1).state)
          name code2 brief2 r2).ops ∧
    RepoOp.createFile "LICENSE"
      ∉ (create_and_deploy_repo user
          (some (create_and_deploy_repo user none name code1 brief1 r1).state)
          name code2 brief2 r2).ops ∧
    RepoOp.updateFile "LICENSE"
      ∉ (create_and_deploy_repo user
          (some (create_and_deploy_repo user none name code1 brief1 r1).state)
          name code2 brief2 r2).ops := by
  refine ⟨rfl, rfl, rfl, rfl, rfl, ?_, ?_, ?_, ?_⟩ <;>
    rw [show (create_and_deploy_repo user
        (some (create_and_deploy_repo user none name code1 brief1 r1).state)
        name code2 brief2 r2).ops
      = [.updateFile "index.html", .updateFile "README.md", .enablePages] from rfl] <;>
    decide

/-! ## Claim about the Bootstrap keyword detection -/

/-- Keyword detection is containment in the lowercased brief. -/
lemma needs_bootstrap_iff (b : String) :
    needs_bootstrap b = true ↔ ∃ w ∈ bootstrapKeywords, occursIn w (pyLower b) := by
  simp [needs_bootstrap, occursIn, List.any_eq_true]

/-- An occurrence of `R` inside `X ++ Y` lies within `X`, lies within `Y`,
or spans the boundary: `R` splits into a non-empty suffix of `X` followed by
a non-empty prefix of `Y`. -/
lemma append_occurrence_cases {α : Type} {R X Y : List α} (h : R <:+: X ++ Y) :
    R <:+: X ∨ R <:+: Y ∨
      ∃ r1 r2, R = r1 ++ r2 ∧ r1 ≠ [] ∧ r2 ≠ [] ∧ r1 <:+ X ∧ r2 <+: Y := by
  obtain ⟨s, t, hst⟩ := h
  rcases List.append_eq_append_iff.mp hst with ⟨x, hX, _⟩ | ⟨y, hsR, hY⟩
  · left
    exact ⟨s, x, hX.symm⟩
  · rcases List.append_eq_append_iff.mp hsR with ⟨x2, hX2, hR2⟩ | ⟨y2, _, hy⟩
    · by_cases hx0 : x2 = []
      · right; left
        refine ⟨[], t, ?_⟩
        rw [List.nil_append, hR2, hx0, List.nil_append]
        exact hY.symm
      · by_cases hy0 : y = []
        · left
          refine ⟨s, [], ?_⟩
          rw [List.append_nil, hR2, hy0, List.append_nil, hX2]
        · right; right
          exact ⟨x2, y, hR2, hx0, hy0, ⟨s, hX2.symm⟩, ⟨t, hY.symm⟩⟩
    · right; left
      refine ⟨y2, t, ?_⟩
      rw [hY, hy]

/-- A span whose left part is a suffix of `X` is impossible when no
non-empty proper prefix of `R` is a suffix of `X`. -/
lemma span_left_impossible {X R : List Char}
    (hfact : ∀ n < R.length, 0 < n → X.drop (X.length - n) ≠ R.take n)
    {r1 r2 : List Char} (hR : R = r1 ++ r2) (h1 : r1 ≠ []) (h2 : r2 ≠ [])
    (hs : r1 <:+ X) : False := by
  obtain ⟨u, hu⟩ := hs
  have hlen : r1.length < R.length := by
    rw [hR, List.length_append]
    have := List.length_pos.mpr h2
    omega
  have hpos : 0 < r1.length := List.length_pos.mpr h1
  have hdrop : X.drop (X.length - r1.length) = r1 := by
    rw [← hu, List.length_append, Nat.add_sub_cancel, List.drop_left]
  have htake : R.take r1.length = r1 := by rw [hR, List.take_left]
  exact hfact r1.length hlen hpos (hdrop.trans htake.symm)

/-- A span whose right part is a prefix of `Y` is impossible when no
non-empty proper suffix of `R` is a prefix of `Y`. -/
lemma span_right_impossible {Y R : List Char}
    (hfact : ∀ n < R.length, 0 < n → Y.take (R.length - n) ≠ R.drop n)
    {r1 r2 : List Char} (hR : R = r1 ++ r2) (h1 : r1 ≠ []) (h2 : r2 ≠ [])
    (hp : r2 <+: Y) : False := by
  obtain ⟨v, hv⟩ := hp
  have hlenR : R.length = r1.length + r2.length := by rw [hR, List.length_append]
  have hpos1 : 0 < r1.length := List.length_pos.mpr h1
  have hpos2 : 0 < r2.length := List.length_pos.mpr h2
  have hn : r1.length < R.length := by omega
  have hdropR : R.drop r1.length = r2 := by rw [hR, List.drop_left]
  have htakeY : Y.take (R.length - r1.length) = r2 := by
    have he : R.length - r1.length = r2.length := by omega
    rw [he, ← hv, List.take_left]
  exact hfact r1.length hn hpos1 (htakeY.trans hdropR.symm)

/-- A prefix of `X ++ Y` no longer than `X` is a prefix of `X`. -/
lemma take_of_prefix_append {r X Y : List Char} (h : r <+: X ++ Y)
    (hl : r.length ≤ X.length) : r <+: X := by
  obtain ⟨t, ht⟩ := h
  have h1 : r = (X ++ Y).take r.length := by
    rw [← ht, List.take_left]
  rw [h1, List.take_append_of_le_length hl]
  exact List.take_prefix _ _

/-- No position of the plain-template chunk before the brief hosts the
Bootstrap link. -/
lemma factX1_absent : ¬ (bootstrap_css_link.data <:+: tplPlain.data) := by decide

/-- No non-empty proper prefix of the Bootstrap link is a suffix of the
chunk before the brief. -/
lemma factX1_span : ∀ n < bootstrap_css_link.data.length, 0 < n →
    tplPlain.data.drop (tplPlain.data.length - n)
      ≠ bootstrap_css_link.data.take n := by decide

/-- No non-empty proper suffix of the Bootstrap link is a prefix of the
chunk between brief and checks. -/
lemma factB2_pre_span : ∀ n < bootstrap_css_link.data.length, 0 < n →
    tplAfterBrief.data.take (bootstrap_css_link.data.length - n)
      ≠ bootstrap_css_link.data.drop n := by decide

/-- The chunk between brief and checks does not host the Bootstrap link. -/
lemma factB2_absent : ¬ (bootstrap_css_link.data <:+: tplAfterBrief.data) := by decide

/-- No non-empty proper prefix of the Bootstrap link is a suffix of the
chunk between brief and checks. -/
lemma factB2_suf_span : ∀ n < bootstrap_css_link.data.length, 0 < n →
    tplAfterBrief.data.drop (tplAfterBrief.data.length - n)
      ≠ bootstrap_css_link.data.take n := by decide

/-- The closing chunk does not host the Bootstrap link. -/
lemma factE_absent : ¬ (bootstrap_css_link.data <:+: tplAfterChecks.data) := by decide

/-- No non-empty proper suffix of the Bootstrap link is a prefix of the
closing chunk. -/
lemma factE_pre_span : ∀ n < bootstrap_css_link.data.length, 0 < n →
    tplAfterChecks.data.take (bootstrap_css_link.data.length - n)
      ≠ bootstrap_css_link.data.drop n := by decide

/-- The Bootstrap link is no longer than the chunk between brief and checks. -/
lemma factR_le_B2 : bootstrap_css_link.data.length ≤ tplAfterBrief.data.length := by decide

/-- Claim C3, counterexample: As stated — for every brief and every check
list, the fallback document contains the Bootstrap CSS reference iff the
lowercased brief contains a keyword — the claim is false: with brief `""`
and the single check being the Bootstrap link text itself, the rendered
check item injects the reference although the brief holds no keyword. -/
theorem claim_C3_counterexample :
    ¬ (∀ (brief : String) (checks : List String),
        occursIn bootstrap_css_link (fallbackDoc brief checks) ↔
          ∃ w ∈ bootstrapKeywords, occursIn w (pyLower brief)) := by
  intro h
  have hocc : occursIn bootstrap_css_link (fallbackDoc "" [bootstrap_css_link]) :=
    ⟨(tplHead ++ tplAfterCss ++ tplAfterContainer ++ tplAfterBrief ++ "<li>").data,
      ("</li>" ++ tplAfterChecks).data, by rfl⟩
  have h1 := (h "" [bootstrap_css_link]).mp hocc
  exact absurd h1 (by decide)

/-- Claim C3, amended: Provided the Bootstrap link text occurs neither in the
brief nor in the rendered check list, the fallback document contains the
Bootstrap CSS reference iff the lowercased brief contains at least one of
the keywords `bootstrap`, `navbar`, `card`, `button`, `form`. -/
theorem claim_C3_amended_keyword_iff (b : String) (cs : List String)
    (hb : ¬ occursIn bootstrap_css_link b)
    (hc : ¬ occursIn bootstrap_css_link (renderChecks cs)) :
    occursIn bootstrap_css_link (fallbackDoc b cs) ↔
      ∃ w ∈ bootstrapKeywords, occursIn w (pyLower b) := by
  rw [← needs_bootstrap_iff]
  constructor
  · intro h
    by_contra hnb
    have h0 : needs_bootstrap b = false := by simpa using hnb
    rw [occursIn, fallbackDoc_data_plain b cs h0] at h
    rcases append_occurrence_cases h with h1 | h1 | ⟨r1, r2, hR, hr1, hr2, hsuf, hpre⟩
    · exact factX1_absent h1
    · rcases append_occurrence_cases h1 with h2 | h2 | ⟨r1, r2, hR, hr1, hr2, hsuf, hpre⟩
      · exact hb h2
      · rcases append_occurrence_cases h2 with h3 | h3 | ⟨r1, r2, hR, hr1, hr2, hsuf, hpre⟩
        · exact factB2_absent h3
        · rcases append_occurrence_cases h3 with h4 | h4 | ⟨r1, r2, hR, hr1, hr2, hsuf, hpre⟩
          · exact hc h4
          · exact factE_absent h4
          · exact span_right_impossible factE_pre_span hR hr1 hr2 hpre
        · exact span_left_impossible factB2_suf_span hR hr1 hr2 hsuf
      · have hlen : r2.length ≤ tplAfterBrief.data.length := by
          have hp1 : 0 < r1.length := List.length_pos.mpr hr1
          have hadd : bootstrap_css_link.data.length = r1.length + r2.length := by
            rw [hR, List.length_append]
          have hRB := factR_le_B2
          omega
        exact span_right_impossible factB2_pre_span hR hr1 hr2
          (take_of_prefix_append hpre hlen)
    · exact span_left_impossible factX1_span hR hr1 hr2 hsuf
  · intro h
    have hdoc := fallbackDoc_data b cs
    rw [h] at hdoc
    simp only [if_true] at hdoc
    rw [occursIn, hdoc]
    exact ⟨tplHead.data,
      tplAfterCss.data ++ (("container mt-5" : String).data ++ (tplAfterContainer.data
        ++ (b.data ++ (tplAfterBrief.data ++ ((renderChecks cs).data
        ++ tplAfterChecks.data))))),
      by simp [List.append_assoc]⟩

/-- Witness for the amended C3 at a concrete keyword-free brief. -/
theorem claim_C3_witness :
    (¬ occursIn bootstrap_css_link "hello") ∧
    (¬ occursIn bootstrap_css_link (renderChecks ["no styling"])) ∧
    (occursIn bootstrap_css_link (fallbackDoc "hello" ["no styling"]) ↔
      ∃ w ∈ bootstrapKeywords, occursIn w (pyLower "hello")) :=
  ⟨by decide, by decide,
    claim_C3_amended_keyword_iff "hello" ["no styling"] (by decide) (by decide)⟩
